import Mathlib

/-!
Shallow embedding of the eglobe-superadmin repository for verification.

Backend (src/backend/routes/superadminRoutes.js, src/backend/controllers/schoolController.js):
the superadmin dashboard aggregation, trial activation and school deletion are modelled as
pure functions over an explicit database state (lists of documents) and an explicit clock
(milliseconds since epoch, as in JS Date arithmetic).

Frontend (src/frontend/.../register-school.component.ts): the registration wizard is
modelled as a state machine; network calls are counted and their outcomes supplied by an
environment, so that claims about "no network call issued" become claims about counters.
-/

namespace Eglobe

/-- A document of the schools collection: fields read by the routes in src
(src/backend/routes/superadminRoutes.js uses status, name, createdAt and the id). -/
structure School where
  id : Nat
  name : String
  status : Bool
  createdAt : Int
  deriving Repr, DecidableEq

/-- A document of the users collection, as read by the dashboard admin lookup
(match on schoolId and role, project name). -/
structure User where
  schoolId : Nat
  role : String
  name : String
  deriving Repr, DecidableEq

/-- A document of the subscriptions collection. The schema file is not under src;
these are exactly the fields the code under src reads or writes:
schoolId, planType, status, expiresAt, priority, finalAmount (dashboard pipeline)
and durationDays, messageLimits, usageStats.lastResetDate, testMode (activate-trial).
Timestamps are milliseconds since epoch. -/
structure Subscription where
  schoolId : Nat
  planType : String
  status : String
  expiresAt : Int
  priority : Int
  finalAmount : Int
  durationDays : Int
  smsMonthly : Int
  whatsappMonthly : Int
  lastResetDate : Int
  testMode : Bool
  deriving Repr, DecidableEq

/-- The database state seen by the superadmin routes. -/
structure DB where
  schools : List School
  users : List User
  subs : List Subscription
  deriving Repr, DecidableEq

/-- The sort key of the currentSub lookup: sort on priority descending, then
expiresAt descending, means record a comes no later than record b exactly when -/
def SubDominates (a b : Subscription) : Prop :=
  b.priority < a.priority ∨ (a.priority = b.priority ∧ b.expiresAt ≤ a.expiresAt)

instance (a b : Subscription) : Decidable (SubDominates a b) := by
  unfold SubDominates; infer_instance

/-- Fold selecting the first maximal element under SubDominates, i.e. the head of a
stable sort by priority descending then expiresAt descending. -/
def pickBest (init : Subscription) (l : List Subscription) : Subscription :=
  l.foldl (fun best c => if SubDominates best c then best else c) init

/-- The currentSub lookup of the dashboard pipeline restricted to one school:
match on schoolId, sort on priority descending then expiresAt descending, limit 1. -/
def pickCurrent : List Subscription → Option Subscription
  | [] => none
  | s :: rest => some (pickBest s rest)

/-- The subscriptions matched for a given school id by the currentSub lookup. -/
def subsFor (db : DB) (schoolId : Nat) : List Subscription :=
  db.subs.filter (fun c => c.schoolId == schoolId)

/-- daysRemaining as added by the pipeline:
max 0 (ceil ((expiresAt - now) / (1000*60*60*24))), with exact division. -/
def daysRemaining (now e : Int) : Int :=
  max 0 ⌈((e : ℚ) - (now : ℚ)) / 86400000⌉

/-- The admin user resolved by the adminUser lookup: first match on schoolId and
role admin, in collection order (limit 1). -/
def adminFor (db : DB) (schoolId : Nat) : Option User :=
  db.users.find? (fun u => u.schoolId == schoolId && u.role == "admin")

/-- One row of the dashboard projection stage. expiresAt and daysRemaining are
missing (none) when the school has no subscription, as in the Mongo result. -/
structure Row where
  id : Nat
  schoolName : String
  adminName : String
  planType : String
  status : String
  expiresAt : Option Int
  daysRemaining : Option Int
  isTrial : Bool
  revenue : Int
  createdAt : Int
  deriving Repr, DecidableEq

/-- The projection stage of the dashboard aggregation for one school document. -/
def mkRow (db : DB) (now : Int) (s : School) : Row :=
  let cur := pickCurrent (subsFor db s.id)
  { id := s.id
    schoolName := s.name
    adminName := ((adminFor db s.id).map (fun u => u.name)).getD "Unknown"
    planType := (cur.map (fun c => c.planType)).getD "none"
    status := (cur.map (fun c => c.status)).getD "inactive"
    expiresAt := cur.map (fun c => c.expiresAt)
    daysRemaining := cur.map (fun c => daysRemaining now c.expiresAt)
    isTrial := ((cur.map (fun c => c.planType)).getD "") == "trial"
    revenue := (cur.map (fun c => c.finalAmount)).getD 0
    createdAt := s.createdAt }

/-- The full aggregation result: rows for schools with status true, sorted by
createdAt descending (stable). -/
def dashboardRows (db : DB) (now : Int) : List Row :=
  ((db.schools.filter (fun s => s.status)).map (mkRow db now)).insertionSort
    (fun a b => b.createdAt ≤ a.createdAt)

/-- In JS, s.daysRemaining is greater than 0 is false when the field is missing. -/
def drPos : Option Int → Bool
  | some v => decide (0 < v)
  | none => false

/-- The JSON body of the dashboard response. -/
structure DashboardResponse where
  schools : List Row
  totalSchools : Nat
  activeTrials : Nat
  activePaid : Nat
  totalRevenue : Int
  deriving Repr, DecidableEq

/-- GET /dashboard handler: count schools with status true; if zero, respond with the
zeroed body without running the aggregation; otherwise aggregate and compute the
statistics over the returned rows. The Bool records whether the aggregation ran. -/
def dashboard (db : DB) (now : Int) : DashboardResponse × Bool :=
  if (db.schools.filter (fun s => s.status)).length = 0 then
    ({ schools := [], totalSchools := 0, activeTrials := 0, activePaid := 0,
       totalRevenue := 0 }, false)
  else
    let rows := dashboardRows db now
    ({ schools := rows
       totalSchools := rows.length
       activeTrials := (rows.filter (fun r =>
         r.isTrial && r.status == "active" && drPos r.daysRemaining)).length
       activePaid := (rows.filter (fun r =>
         !r.isTrial && r.status == "active" && drPos r.daysRemaining)).length
       totalRevenue := (rows.map (fun r => r.revenue)).sum }, true)

/-- The JSON status and message of the activate-trial response. -/
structure TrialResponse where
  status : Nat
  message : String
  deriving Repr, DecidableEq

/-- The subscription document built by POST /activate-trial: 14 day expiry from now,
trial plan, active status, zero finalAmount, 5/5 monthly message limits, usage reset
to now. The route does not set priority; the schema default (the model file is not
under src) is taken as 0, and no claim depends on it. -/
def trialSub (schoolId : Nat) (now : Int) (testMode : Bool) : Subscription :=
  { schoolId := schoolId
    planType := "trial"
    status := "active"
    expiresAt := now + 14 * 24 * 60 * 60 * 1000
    priority := 0
    finalAmount := 0
    durationDays := 14
    smsMonthly := 5
    whatsappMonthly := 5
    lastResetDate := now
    testMode := testMode }

/-- POST /activate-trial handler: findById on schools (404 when absent), then findOne
for a subscription of that school with status active or pending (400 conflict when one
exists, nothing created), else save the new trial subscription. -/
def activateTrial (db : DB) (now : Int) (schoolId : Nat) (testMode : Bool) :
    TrialResponse × DB :=
  match db.schools.find? (fun s => s.id == schoolId) with
  | none => ({ status := 404, message := "School not found" }, db)
  | some _ =>
    match db.subs.find? (fun c =>
        c.schoolId == schoolId && (c.status == "active" || c.status == "pending")) with
    | some _ => ({ status := 400, message := "Already has subscription" }, db)
    | none =>
      ({ status := 200, message := "Trial activated" },
       { db with subs := db.subs ++ [trialSub schoolId now testMode] })

/-- Evaluation form of the ceiling of an exact division by one day in milliseconds. -/
lemma ceil_div_day (a : Int) : ⌈(a : ℚ) / 86400000⌉ = -(-a / 86400000) := by
  rw [show ((a : ℚ) / 86400000) = -(((-a : Int) : ℚ) / ((86400000 : ℕ) : ℚ)) by
    push_cast; ring]
  rw [Int.ceil_neg, Rat.floor_intCast_div_natCast]
  norm_num

/-- daysRemaining computed by integer division, for kernel evaluation. -/
lemma daysRemaining_eval (now e : Int) :
    daysRemaining now e = max 0 (-((now - e) / 86400000)) := by
  unfold daysRemaining
  rw [show ((e : ℚ) - (now : ℚ)) = (((e - now : Int) : ℚ)) by push_cast; ring]
  rw [ceil_div_day]
  norm_num

lemma subDominates_refl (a : Subscription) : SubDominates a a := by
  unfold SubDominates; omega

lemma subDominates_total (a b : Subscription) : SubDominates a b ∨ SubDominates b a := by
  unfold SubDominates; omega

lemma subDominates_trans {a b c : Subscription} :
    SubDominates a b → SubDominates b c → SubDominates a c := by
  unfold SubDominates; omega

lemma pickBest_mem : ∀ (l : List Subscription) (init : Subscription),
    pickBest init l ∈ init :: l := by
  intro l
  induction l with
  | nil => intro init; simp [pickBest]
  | cons c rest ih =>
    intro init
    show pickBest init (c :: rest) ∈ init :: c :: rest
    unfold pickBest
    rw [List.foldl_cons]
    by_cases h : SubDominates init c
    · have := ih init
      simp only [if_pos h]
      rcases List.mem_cons.mp this with h1 | h1
      · exact List.mem_cons.mpr (Or.inl h1)
      · exact List.mem_cons.mpr (Or.inr (List.mem_cons.mpr (Or.inr h1)))
    · have := ih c
      simp only [if_neg h]
      rcases List.mem_cons.mp this with h1 | h1
      · exact List.mem_cons.mpr (Or.inr (List.mem_cons.mpr (Or.inl h1)))
      · exact List.mem_cons.mpr (Or.inr (List.mem_cons.mpr (Or.inr h1)))

lemma pickBest_dominates : ∀ (l : List Subscription) (init : Subscription),
    ∀ t ∈ init :: l, SubDominates (pickBest init l) t := by
  intro l
  induction l with
  | nil =>
    intro init t ht
    rcases List.mem_cons.mp ht with h | h
    · subst h; exact subDominates_refl _
    · simp at h
  | cons c rest ih =>
    intro init t ht
    unfold pickBest
    rw [List.foldl_cons]
    by_cases h : SubDominates init c
    · simp only [if_pos h]
      rcases List.mem_cons.mp ht with h1 | h1
      · rw [h1]; exact ih init init (List.mem_cons_self _ _)
      · rcases List.mem_cons.mp h1 with h2 | h2
        · rw [h2]
          exact subDominates_trans (ih init init (List.mem_cons_self _ _)) h
        · exact ih init t (List.mem_cons.mpr (Or.inr h2))
    · simp only [if_neg h]
      have hc : SubDominates c init := (subDominates_total init c).resolve_left h
      rcases List.mem_cons.mp ht with h1 | h1
      · rw [h1]
        exact subDominates_trans (ih c c (List.mem_cons_self _ _)) hc
      · rcases List.mem_cons.mp h1 with h2 | h2
        · rw [h2]; exact ih c c (List.mem_cons_self _ _)
        · exact ih c t (List.mem_cons.mpr (Or.inr h2))

/-- C1: for every school with at least one subscription record, the currentSub lookup
(sort by priority descending, then expiresAt descending, limit 1) selects exactly one
record, a member of the list of candidates that has the highest priority among them,
with ties broken by the latest expiresAt; in particular, given exactly a priority-1
record expiring at T1 and a priority-2 record expiring at T2 with T2 strictly before
T1, the priority-2 record is selected. -/
theorem c1_current_subscription_selection :
    (∀ subs : List Subscription, subs ≠ [] →
      ∃ c, pickCurrent subs = some c ∧ c ∈ subs ∧
        ∀ t ∈ subs, t.priority < c.priority ∨
          (t.priority = c.priority ∧ t.expiresAt ≤ c.expiresAt)) ∧
    (∀ a b : Subscription, a.priority = 1 → b.priority = 2 →
      b.expiresAt < a.expiresAt → pickCurrent [a, b] = some b) := by
  constructor
  · intro subs hne
    match subs with
    | [] => exact absurd rfl hne
    | s :: rest =>
      refine ⟨pickBest s rest, rfl, pickBest_mem rest s, ?_⟩
      intro t ht
      have hd := pickBest_dominates rest s t ht
      unfold SubDominates at hd
      omega
  · intro a b ha hb hlt
    show some (pickBest a [b]) = some b
    unfold pickBest
    rw [List.foldl_cons, List.foldl_nil]
    rw [if_neg]
    unfold SubDominates
    omega

/-- C1 witness: concrete two-subscription school, the priority-2 record wins even
though it expires earlier. -/
theorem c1_witness :
    pickCurrent [⟨0, "paid", "active", 100, 1, 7, 30, 5, 5, 0, false⟩,
                 ⟨0, "trial", "active", 50, 2, 0, 14, 5, 5, 0, false⟩] =
      some ⟨0, "trial", "active", 50, 2, 0, 14, 5, 5, 0, false⟩ :=
  c1_current_subscription_selection.2 _ _ rfl rfl (by decide)

/-- C2: daysRemaining is exactly the ceiling of (expiresAt minus now) divided by one
day in milliseconds, floored at 0; it is never negative, and for an expiresAt strictly
in the past it is exactly 0. The last conjunct ties the formula to the projected row. -/
theorem c2_days_remaining :
    (∀ now e : Int, daysRemaining now e = max 0 ⌈((e : ℚ) - (now : ℚ)) / 86400000⌉) ∧
    (∀ now e : Int, 0 ≤ daysRemaining now e) ∧
    (∀ now e : Int, e < now → daysRemaining now e = 0) ∧
    (∀ (db : DB) (now : Int) (s : School),
      (mkRow db now s).daysRemaining =
        (pickCurrent (subsFor db s.id)).map (fun c => daysRemaining now c.expiresAt)) := by
  refine ⟨fun now e => rfl, fun now e => le_max_left 0 _, ?_, fun db now s => rfl⟩
  intro now e hlt
  rw [daysRemaining_eval]
  have h : 0 ≤ (now - e) / 86400000 := Int.ediv_nonneg (by omega) (by norm_num)
  omega

/-- C2 witness: an expired subscription (expiresAt 0, now 1000) has 0 days remaining. -/
theorem c2_witness : daysRemaining 1000 0 = 0 :=
  c2_days_remaining.2.2.1 1000 0 (by decide)

/-- C6: totalRevenue is the sum of the revenue field over all returned rows with no
filtering by active or expired status; each row carries the finalAmount of its current
subscription, or 0 when the school has none; and concretely a school whose only
subscription is expired still contributes its finalAmount (500) to totalRevenue. -/
theorem c6_total_revenue :
    (∀ (db : DB) (now : Int),
      (dashboard db now).1.totalRevenue =
        ((dashboard db now).1.schools.map (fun r => r.revenue)).sum) ∧
    (∀ (db : DB) (now : Int) (s : School),
      (mkRow db now s).revenue =
        match pickCurrent (subsFor db s.id) with
        | some c => c.finalAmount
        | none => 0) ∧
    (dashboard ⟨[⟨7, "A", true, 10⟩], [],
        [⟨7, "paid", "expired", 0, 1, 500, 30, 5, 5, 0, false⟩]⟩ 1000).1.totalRevenue
      = 500 := by
  refine ⟨?_, ?_, ?_⟩
  · intro db now
    by_cases h : (db.schools.filter (fun s => s.status)).length = 0
    · simp [dashboard, h]
    · simp [dashboard, h]
  · intro db now s
    cases hc : pickCurrent (subsFor db s.id) <;> simp [mkRow, hc]
  · rfl

/-- C7: with zero schools flagged active, the dashboard handler returns the zeroed
response body and does not run the aggregation (second component false). -/
theorem c7_empty_short_circuit (db : DB) (now : Int)
    (h : (db.schools.filter (fun s => s.status)).length = 0) :
    dashboard db now =
      ({ schools := [], totalSchools := 0, activeTrials := 0, activePaid := 0,
         totalRevenue := 0 }, false) := by
  unfold dashboard
  rw [if_pos h]

/-- C7 witness: a database whose only school has status false short-circuits. -/
theorem c7_witness :
    dashboard ⟨[⟨3, "B", false, 0⟩], [], []⟩ 0 =
      ({ schools := [], totalSchools := 0, activeTrials := 0, activePaid := 0,
         totalRevenue := 0 }, false) :=
  c7_empty_short_circuit _ 0 rfl

/-- C8: activeTrials counts returned rows with isTrial true, status active and positive
daysRemaining, activePaid the same with isTrial false; a row's isTrial flag agrees with
(planType equals trial); and a school with no subscription gets planType none and status
inactive, hence satisfies neither counting predicate. -/
theorem c8_statistics :
    (∀ (db : DB) (now : Int),
      (dashboard db now).1.activeTrials =
        ((dashboard db now).1.schools.filter (fun r =>
          r.isTrial && r.status == "active" && drPos r.daysRemaining)).length) ∧
    (∀ (db : DB) (now : Int),
      (dashboard db now).1.activePaid =
        ((dashboard db now).1.schools.filter (fun r =>
          !r.isTrial && r.status == "active" && drPos r.daysRemaining)).length) ∧
    (∀ (db : DB) (now : Int) (s : School),
      (mkRow db now s).isTrial = ((mkRow db now s).planType == "trial")) ∧
    (∀ (db : DB) (now : Int) (s : School), pickCurrent (subsFor db s.id) = none →
      (mkRow db now s).planType = "none" ∧ (mkRow db now s).status = "inactive" ∧
      ((mkRow db now s).isTrial && (mkRow db now s).status == "active" &&
        drPos (mkRow db now s).daysRemaining) = false ∧
      (!(mkRow db now s).isTrial && (mkRow db now s).status == "active" &&
        drPos (mkRow db now s).daysRemaining) = false) := by
  refine ⟨?_, ?_, ?_, ?_⟩
  · intro db now
    by_cases h : (db.schools.filter (fun s => s.status)).length = 0
    · simp [dashboard, h]
    · simp [dashboard, h]
  · intro db now
    by_cases h : (db.schools.filter (fun s => s.status)).length = 0
    · simp [dashboard, h]
    · simp [dashboard, h]
  · intro db now s
    cases hc : pickCurrent (subsFor db s.id) <;> simp [mkRow, hc]
  · intro db now s hc
    simp [mkRow, hc, drPos]

/-- C8 witness: a school with no subscription records gets planType none, status
inactive, and is counted in neither statistic. -/
theorem c8_witness :
    (mkRow ⟨[⟨3, "B", true, 0⟩], [], []⟩ 0 ⟨3, "B", true, 0⟩).planType = "none" ∧
    (mkRow ⟨[⟨3, "B", true, 0⟩], [], []⟩ 0 ⟨3, "B", true, 0⟩).status = "inactive" ∧
    ((mkRow ⟨[⟨3, "B", true, 0⟩], [], []⟩ 0 ⟨3, "B", true, 0⟩).isTrial &&
      (mkRow ⟨[⟨3, "B", true, 0⟩], [], []⟩ 0 ⟨3, "B", true, 0⟩).status == "active" &&
      drPos (mkRow ⟨[⟨3, "B", true, 0⟩], [], []⟩ 0 ⟨3, "B", true, 0⟩).daysRemaining)
      = false ∧
    (!(mkRow ⟨[⟨3, "B", true, 0⟩], [], []⟩ 0 ⟨3, "B", true, 0⟩).isTrial &&
      (mkRow ⟨[⟨3, "B", true, 0⟩], [], []⟩ 0 ⟨3, "B", true, 0⟩).status == "active" &&
      drPos (mkRow ⟨[⟨3, "B", true, 0⟩], [], []⟩ 0 ⟨3, "B", true, 0⟩).daysRemaining)
      = false :=
  c8_statistics.2.2.2 ⟨[⟨3, "B", true, 0⟩], [], []⟩ 0 ⟨3, "B", true, 0⟩ rfl

/-- The Bool predicate of the conflicting-subscription findOne, as a Prop. -/
lemma trial_conflict_pred (sid : Nat) (c : Subscription) :
    (c.schoolId == sid && (c.status == "active" || c.status == "pending")) = true ↔
    (c.schoolId = sid ∧ (c.status = "active" ∨ c.status = "pending")) := by
  simp

lemma activateTrial_conflict (db : DB) (now : Int) (sid : Nat) (tm : Bool)
    (hs : (db.schools.find? (fun s => s.id == sid)).isSome)
    (hex : ∃ c ∈ db.subs, c.schoolId = sid ∧ (c.status = "active" ∨ c.status = "pending")) :
    activateTrial db now sid tm = ({ status := 400, message := "Already has subscription" }, db) := by
  unfold activateTrial
  cases hfs : db.schools.find? (fun s => s.id == sid) with
  | none => rw [hfs] at hs; simp at hs
  | some sch =>
    have hcs : (db.subs.find? (fun c =>
        c.schoolId == sid && (c.status == "active" || c.status == "pending"))).isSome := by
      rw [List.find?_isSome]
      obtain ⟨c, hcmem, hcp⟩ := hex
      exact ⟨c, hcmem, (trial_conflict_pred sid c).mpr hcp⟩
    cases hfc : db.subs.find? (fun c =>
        c.schoolId == sid && (c.status == "active" || c.status == "pending")) with
    | none => rw [hfc] at hcs; simp at hcs
    | some c0 => rfl

lemma activateTrial_creates (db : DB) (now : Int) (sid : Nat) (tm : Bool)
    (hs : (db.schools.find? (fun s => s.id == sid)).isSome)
    (hnone : ∀ c ∈ db.subs, ¬(c.schoolId = sid ∧ (c.status = "active" ∨ c.status = "pending"))) :
    activateTrial db now sid tm =
      ({ status := 200, message := "Trial activated" },
       { db with subs := db.subs ++ [trialSub sid now tm] }) := by
  unfold activateTrial
  cases hfs : db.schools.find? (fun s => s.id == sid) with
  | none => rw [hfs] at hs; simp at hs
  | some sch =>
    have hfc : db.subs.find? (fun c =>
        c.schoolId == sid && (c.status == "active" || c.status == "pending")) = none := by
      rw [List.find?_eq_none]
      intro c hcmem hcp
      exact hnone c hcmem ((trial_conflict_pred sid c).mp hcp)
    rw [hfc]

/-- C5: when the school exists, an existing active-or-pending subscription for it makes
activate-trial answer 400 Already has subscription and change nothing; when none
exists, exactly one trial subscription is appended, with trial plan, active status,
14-day duration and expiry, zero finalAmount, 5/5 message limits and usage counters
reset to the request time; and an immediate second call for the same school conflicts
and creates no further record. -/
theorem c5_activate_trial :
    (∀ (db : DB) (now : Int) (sid : Nat) (tm : Bool),
      (db.schools.find? (fun s => s.id == sid)).isSome →
      (∃ c ∈ db.subs, c.schoolId = sid ∧ (c.status = "active" ∨ c.status = "pending")) →
      activateTrial db now sid tm =
        ({ status := 400, message := "Already has subscription" }, db)) ∧
    (∀ (db : DB) (now : Int) (sid : Nat) (tm : Bool),
      (db.schools.find? (fun s => s.id == sid)).isSome →
      (∀ c ∈ db.subs, ¬(c.schoolId = sid ∧ (c.status = "active" ∨ c.status = "pending"))) →
      activateTrial db now sid tm =
        ({ status := 200, message := "Trial activated" },
         { db with subs := db.subs ++ [trialSub sid now tm] })) ∧
    (∀ (sid : Nat) (now : Int) (tm : Bool),
      (trialSub sid now tm).planType = "trial" ∧
      (trialSub sid now tm).status = "active" ∧
      (trialSub sid now tm).expiresAt = now + 14 * 24 * 60 * 60 * 1000 ∧
      (trialSub sid now tm).durationDays = 14 ∧
      (trialSub sid now tm).finalAmount = 0 ∧
      (trialSub sid now tm).smsMonthly = 5 ∧
      (trialSub sid now tm).whatsappMonthly = 5 ∧
      (trialSub sid now tm).lastResetDate = now) ∧
    (∀ (db : DB) (now now2 : Int) (sid : Nat) (tm tm2 : Bool),
      (db.schools.find? (fun s => s.id == sid)).isSome →
      (∀ c ∈ db.subs, ¬(c.schoolId = sid ∧ (c.status = "active" ∨ c.status = "pending"))) →
      (activateTrial db now sid tm).1.status = 200 ∧
      activateTrial (activateTrial db now sid tm).2 now2 sid tm2 =
        ({ status := 400, message := "Already has subscription" },
         (activateTrial db now sid tm).2)) := by
  refine ⟨activateTrial_conflict, activateTrial_creates, fun sid now tm => by
    exact ⟨rfl, rfl, rfl, rfl, rfl, rfl, rfl, rfl⟩, ?_⟩
  intro db now now2 sid tm tm2 hs hnone
  have h1 := activateTrial_creates db now sid tm hs hnone
  constructor
  · rw [h1]
  · apply activateTrial_conflict
    · rw [h1]; exact hs
    · rw [h1]
      exact ⟨trialSub sid now tm,
        List.mem_append.mpr (Or.inr (List.mem_singleton.mpr rfl)), rfl, Or.inl rfl⟩

/-- C5 witness: a concrete school with no subscriptions gets a trial created, and the
immediate second call is rejected with the conflict message, creating nothing. -/
theorem c5_witness :
    (activateTrial ⟨[⟨5, "S", true, 0⟩], [], []⟩ 0 5 false).1.status = 200 ∧
    activateTrial (activateTrial ⟨[⟨5, "S", true, 0⟩], [], []⟩ 0 5 false).2 60000 5 false =
      ({ status := 400, message := "Already has subscription" },
       (activateTrial ⟨[⟨5, "S", true, 0⟩], [], []⟩ 0 5 false).2) :=
  c5_activate_trial.2.2.2 ⟨[⟨5, "S", true, 0⟩], [], []⟩ 0 60000 5 false false
    (by decide) (by decide)

/-- The address form of the wizard: every control carries Validators.required, and
latitude and longitude start as null. A required text control is invalid when empty,
a required numeric control when null. -/
structure AddressForm where
  street : String
  city : String
  state : String
  country : String
  postalCode : String
  latitude : Option Int
  longitude : Option Int
  deriving Repr, DecidableEq

/-- Validity of the whole address form under the required validators. -/
def AddressForm.valid (a : AddressForm) : Bool :=
  a.street != "" && a.city != "" && a.state != "" && a.country != "" &&
  a.postalCode != "" && a.latitude.isSome && a.longitude.isSome

/-- The registration payload fields the claims consult; the remaining payload entries
are pass-throughs of form values with no influence on control flow. -/
structure Payload where
  fastTrack : Bool
  isMobileVerified : Bool
  deriving Repr, DecidableEq

/-- Per-transition inputs: the live form contents read by nextStep and submitForm, and
the outcome each network call would receive. detailsValid abbreviates the check that
none of the ten required schoolForm controls is invalid. -/
structure WizardEnv where
  detailsValid : Bool
  fastTrackToggle : Bool
  otpValid : Bool
  address : AddressForm
  sendOtpOk : Bool
  verifyOtpOk : Bool
  submitOk : Bool
  deriving Repr, DecidableEq

/-- The component state: the step signal, OTP lifecycle flags, in-flight guards and
the superadmin flag resolved at init, plus instrumentation of the network boundary:
counters of issued send-otp, verify-otp and register-school calls, the list of
submitted payloads, and the isMobileVerified key of the formData signal (absent until
first written). -/
structure WizardState where
  step : Nat
  isMobileVerified : Bool
  otpSent : Bool
  isSendingOtp : Bool
  isVerifyingOtp : Bool
  isSubmitting : Bool
  isSuperadmin : Bool
  formDataVerified : Option Bool
  sendCalls : Nat
  verifyCalls : Nat
  submitCalls : Nat
  payloads : List Payload
  deriving Repr, DecidableEq

/-- sendOtp: suppressed while a send is in flight; otherwise one POST send-otp is
issued; on provider success otpSent is set and the step becomes 2, on failure the
state is kept; the guard clears when the call resolves. -/
def sendOtp (s : WizardState) (env : WizardEnv) : WizardState :=
  if s.isSendingOtp then s
  else
    let s1 := { s with sendCalls := s.sendCalls + 1 }
    if env.sendOtpOk then
      { s1 with otpSent := true, step := 2, isSendingOtp := false }
    else
      { s1 with isSendingOtp := false }

/-- verifyOtp: suppressed while a verify is in flight; otherwise one POST verify-otp
is issued; on success the mobile is marked verified and the step becomes 3, on
failure the state is kept. -/
def verifyOtp (s : WizardState) (env : WizardEnv) : WizardState :=
  if s.isVerifyingOtp then s
  else
    let s1 := { s with verifyCalls := s.verifyCalls + 1 }
    if env.verifyOtpOk then
      { s1 with isMobileVerified := true, step := 3, isVerifyingOtp := false }
    else
      { s1 with isVerifyingOtp := false }

/-- submitForm: suppressed while a submit is in flight; re-reads the fastTrack toggle
and the superadmin flag, computes finalVerified as true when both hold and as the
verified signal otherwise, and issues one register-school call with that payload. -/
def submitForm (s : WizardState) (env : WizardEnv) : WizardState :=
  if s.isSubmitting then s
  else
    let ft := env.fastTrackToggle && s.isSuperadmin
    let payload : Payload :=
      { fastTrack := ft
        isMobileVerified := if ft then true else s.isMobileVerified }
    { s with submitCalls := s.submitCalls + 1
             payloads := s.payloads ++ [payload]
             isSubmitting := false }

/-- nextStep: step 1 validates the required Details controls, then either fast-tracks
to step 3 (toggle and superadmin both true, formData gets isMobileVerified true with
no network call) or sends the OTP; step 2 validates the six digit code then verifies;
step 3 validates the address form, writes the verified signal into formData, and
submits. Validation failures keep the state unchanged. -/
def nextStep (s : WizardState) (env : WizardEnv) : WizardState :=
  if s.step = 1 then
    if !env.detailsValid then s
    else if env.fastTrackToggle && s.isSuperadmin then
      { s with formDataVerified := some true, step := 3 }
    else sendOtp s env
  else if s.step = 2 then
    if !env.otpValid then s
    else verifyOtp s env
  else if s.step = 3 then
    if !env.address.valid then s
    else submitForm { s with formDataVerified := some s.isMobileVerified } env
  else s

/-- prevStep: any step above 1 goes back one step unconditionally, clearing nothing. -/
def prevStep (s : WizardState) : WizardState :=
  if 1 < s.step then { s with step := s.step - 1 } else s

/-- deleteSchool controller: findByIdAndDelete on schools, then the fixed success
body, with no check of whether anything was deleted. -/
def deleteSchool (schools : List School) (schoolId : Nat) : List School × String :=
  (schools.eraseP (fun s => s.id == schoolId), "School deleted")

/-- C3: with the fast-track toggle and the superadmin flag both true, advancing from
step 1 with valid details goes straight to step 3, changing nothing but the step and
the formData verified key (so zero OTP calls); the toggle and the flag are re-read
when the payload is assembled, and the payload carries true exactly when both hold
again or the mobile was verified; end to end, a fast-tracked session submits a
verified payload with no OTP call; and for a non-superadmin the toggle alone yields
an unverified payload. -/
theorem c3_fast_track_bypass :
    (∀ (s : WizardState) (env : WizardEnv), s.step = 1 → env.detailsValid = true →
      env.fastTrackToggle = true → s.isSuperadmin = true →
      nextStep s env = { s with formDataVerified := some true, step := 3 }) ∧
    (∀ (s : WizardState) (env : WizardEnv), s.step = 3 → env.address.valid = true →
      s.isSubmitting = false →
      (nextStep s env).payloads = s.payloads ++
        [{ fastTrack := env.fastTrackToggle && s.isSuperadmin
           isMobileVerified := if env.fastTrackToggle && s.isSuperadmin then true
                               else s.isMobileVerified }]) ∧
    (∀ (s : WizardState) (env env2 : WizardEnv), s.step = 1 → env.detailsValid = true →
      env.fastTrackToggle = true → s.isSuperadmin = true → env2.address.valid = true →
      s.isSubmitting = false → env2.fastTrackToggle = true →
      (nextStep (nextStep s env) env2).sendCalls = s.sendCalls ∧
      (nextStep (nextStep s env) env2).verifyCalls = s.verifyCalls ∧
      (nextStep (nextStep s env) env2).payloads = s.payloads ++
        [{ fastTrack := true, isMobileVerified := true }]) ∧
    (∀ (s : WizardState) (env : WizardEnv), s.step = 3 → env.address.valid = true →
      s.isSubmitting = false → s.isSuperadmin = false → s.isMobileVerified = false →
      (nextStep s env).payloads = s.payloads ++
        [{ fastTrack := false, isMobileVerified := false }]) := by
  refine ⟨?_, ?_, ?_, ?_⟩
  · intro s env h1 h2 h3 h4
    simp [nextStep, h1, h2, h3, h4]
  · intro s env h1 h2 h3
    simp [nextStep, submitForm, h1, h2, h3]
  · intro s env env2 h1 h2 h3 h4 h5 h6 h7
    simp [nextStep, submitForm, h1, h2, h3, h4, h5, h6, h7]
  · intro s env h1 h2 h3 h4 h5
    simp [nextStep, submitForm, h1, h2, h3, h4, h5]

/-- C3 witness: a superadmin session with the toggle set fast-tracks from step 1 and
submits a verified payload with no OTP traffic. -/
theorem c3_witness :
    (nextStep (nextStep ⟨1, false, false, false, false, false, true, none, 0, 0, 0, []⟩
        ⟨true, true, false, ⟨"", "", "", "", "", none, none⟩, true, true, true⟩)
      ⟨true, true, false, ⟨"s", "c", "st", "in", "11", some 1, some 2⟩, true, true, true⟩).sendCalls = 0 ∧
    (nextStep (nextStep ⟨1, false, false, false, false, false, true, none, 0, 0, 0, []⟩
        ⟨true, true, false, ⟨"", "", "", "", "", none, none⟩, true, true, true⟩)
      ⟨true, true, false, ⟨"s", "c", "st", "in", "11", some 1, some 2⟩, true, true, true⟩).verifyCalls = 0 ∧
    (nextStep (nextStep ⟨1, false, false, false, false, false, true, none, 0, 0, 0, []⟩
        ⟨true, true, false, ⟨"", "", "", "", "", none, none⟩, true, true, true⟩)
      ⟨true, true, false, ⟨"s", "c", "st", "in", "11", some 1, some 2⟩, true, true, true⟩).payloads =
      [] ++ [{ fastTrack := true, isMobileVerified := true }] :=
  c3_fast_track_bypass.2.2.1
    ⟨1, false, false, false, false, false, true, none, 0, 0, 0, []⟩
    ⟨true, true, false, ⟨"", "", "", "", "", none, none⟩, true, true, true⟩
    ⟨true, true, false, ⟨"s", "c", "st", "in", "11", some 1, some 2⟩, true, true, true⟩
    rfl rfl rfl rfl (by decide) rfl rfl

/-- C4 counterexample: a session already verified (isMobileVerified true) standing at
step 2 with a valid code does not reach step 3 without a new verify call: the advance
issues one more OTP-verify request (counter 1 becomes 2), refuting the claim that no
new OTP-verify call is required. -/
theorem c4_counterexample :
    ¬ ((nextStep ⟨2, true, true, false, false, false, false, some true, 1, 1, 0, []⟩
          ⟨true, false, true, ⟨"s", "c", "st", "in", "11", some 1, some 2⟩, true, true, true⟩).step = 3 ∧
       (nextStep ⟨2, true, true, false, false, false, false, some true, 1, 1, 0, []⟩
          ⟨true, false, true, ⟨"s", "c", "st", "in", "11", some 1, some 2⟩, true, true, true⟩).verifyCalls = 1) := by
  decide

/-- C4 amended: the verified state is retained per session: backward navigation only
decrements the step and clears nothing, and the retained flag still yields a verified
submission payload; but advancing from step 2 always issues one new OTP-verify call,
and reaches step 3 exactly when the provider confirms again. -/
theorem c4_verified_state_retention :
    (∀ s : WizardState, 1 < s.step → prevStep s = { s with step := s.step - 1 }) ∧
    (∀ (s : WizardState) (env : WizardEnv), s.step = 2 → env.otpValid = true →
      s.isVerifyingOtp = false →
      (nextStep s env).verifyCalls = s.verifyCalls + 1 ∧
      ((nextStep s env).step = 3 ↔ env.verifyOtpOk = true) ∧
      (nextStep s env).isMobileVerified = (env.verifyOtpOk || s.isMobileVerified)) ∧
    (∀ (s : WizardState) (env : WizardEnv), s.step = 3 → env.address.valid = true →
      s.isSubmitting = false → s.isMobileVerified = true →
      (nextStep s env).payloads = s.payloads ++
        [{ fastTrack := env.fastTrackToggle && s.isSuperadmin
           isMobileVerified := true }]) := by
  refine ⟨?_, ?_, ?_⟩
  · intro s h
    simp [prevStep, h]
  · intro s env h1 h2 h3
    by_cases hok : env.verifyOtpOk = true
    · simp [nextStep, verifyOtp, h1, h2, h3, hok]
    · rw [Bool.not_eq_true] at hok
      simp [nextStep, verifyOtp, h1, h2, h3, hok]
  · intro s env h1 h2 h3 h4
    by_cases hft : (env.fastTrackToggle && s.isSuperadmin) = true
    · simp [nextStep, submitForm, h1, h2, h3, h4, hft]
    · rw [Bool.not_eq_true] at hft
      simp [nextStep, submitForm, h1, h2, h3, h4, hft]

/-- C4 witness: a verified session returning to step 2 keeps its verified flag through
prevStep, and its next advance issues exactly one more verify call. -/
theorem c4_witness :
    (nextStep ⟨2, true, true, false, false, false, false, some true, 1, 1, 0, []⟩
        ⟨true, false, true, ⟨"s", "c", "st", "in", "11", some 1, some 2⟩, true, false, true⟩).verifyCalls = 2 ∧
    ((nextStep ⟨2, true, true, false, false, false, false, some true, 1, 1, 0, []⟩
        ⟨true, false, true, ⟨"s", "c", "st", "in", "11", some 1, some 2⟩, true, false, true⟩).step = 3 ↔
      False) := by
  have h := c4_verified_state_retention.2.1
    ⟨2, true, true, false, false, false, false, some true, 1, 1, 0, []⟩
    ⟨true, false, true, ⟨"s", "c", "st", "in", "11", some 1, some 2⟩, true, false, true⟩
    rfl rfl rfl
  exact ⟨h.1, by rw [h.2.1]; simp⟩

/-- C9: wizard validation failures are client-local: with an invalid required Details
control, advancing from step 1 returns the state unchanged (no send-otp call); with an
invalid address form, advancing from step 3 returns the state unchanged (no
register-school call); and a null latitude makes the address form invalid. -/
theorem c9_validation_blocks_network :
    (∀ (s : WizardState) (env : WizardEnv), s.step = 1 → env.detailsValid = false →
      nextStep s env = s) ∧
    (∀ (s : WizardState) (env : WizardEnv), s.step = 3 → env.address.valid = false →
      nextStep s env = s) ∧
    (∀ a : AddressForm, a.latitude = none → a.valid = false) := by
  refine ⟨?_, ?_, ?_⟩
  · intro s env h1 h2
    simp [nextStep, h1, h2]
  · intro s env h1 h2
    simp [nextStep, h1, h2]
  · intro a h
    simp [AddressForm.valid, h]

/-- C9 witness: a step-3 session with a null latitude is rejected with no state change
and no network call. -/
theorem c9_witness :
    nextStep ⟨3, true, true, false, false, false, false, some true, 1, 1, 0, []⟩
        ⟨true, false, true, ⟨"s", "c", "st", "in", "11", none, some 2⟩, true, true, true⟩ =
      ⟨3, true, true, false, false, false, false, some true, 1, 1, 0, []⟩ :=
  c9_validation_blocks_network.2.1
    ⟨3, true, true, false, false, false, false, some true, 1, 1, 0, []⟩
    ⟨true, false, true, ⟨"s", "c", "st", "in", "11", none, some 2⟩, true, true, true⟩
    rfl (by decide)

/-- C10: deleteSchool responds with the fixed success message whatever the database
contents and the requested id, so deleting an absent school is indistinguishable from
deleting an existing one at the public interface. -/
theorem c10_delete_school_uniform_response :
    (∀ (schools : List School) (schoolId : Nat),
      (deleteSchool schools schoolId).2 = "School deleted") ∧
    (∀ (schools1 schools2 : List School) (sid1 sid2 : Nat),
      (deleteSchool schools1 sid1).2 = (deleteSchool schools2 sid2).2) :=
  ⟨fun _ _ => rfl, fun _ _ _ _ => rfl⟩

end Eglobe
